import Mathlib

/-!
Shallow embedding of the idle-cash return-comparison engine (`src/main.py`).

The fee calculators, return calculators, and the comparison logic of `main`
are embedded over exact rationals (`ℚ`); the surrounding I/O (rate scraping,
prompting, printing) is outside the engine and not modelled.  Each definition
mirrors the Python function or block of `main` of the same name.
-/

/-- `calculate_ib_fx_fee` (src/main.py lines 37-38): `max(2, 0.2 * 0.0001 * usd_amount)`. -/
def calculate_ib_fx_fee (usd_amount : ℚ) : ℚ :=
  max 2 (0.2 * 0.0001 * usd_amount)

/-- `calculate_ib_bond_fee` (src/main.py lines 40-44): tiered at 1,000,000. -/
def calculate_ib_bond_fee (face_value : ℚ) : ℚ :=
  if face_value ≤ 1000000 then max (0.002 * 0.0001 * face_value) 5
  else max (0.0001 * face_value) 5

/-- `calculate_futu_bond_fee` (src/main.py lines 46-49): commission plus clamped platform fee. -/
def calculate_futu_bond_fee (face_value : ℚ) : ℚ :=
  let commission := max (0.0008 * face_value) 2
  let platform_fee := min (max (0.0004 * face_value) 2) 15
  commission + platform_fee

/-- `calculate_usd_received` (src/main.py lines 51-56): convert and optionally
subtract a fee computed on the gross converted amount. -/
def calculate_usd_received (capital_hkd fx_rate : ℚ) (fx_fee_function : Option (ℚ → ℚ)) : ℚ :=
  let usd_amount := capital_hkd * fx_rate
  match fx_fee_function with
  | some fee_fn => usd_amount - fee_fn usd_amount
  | none => usd_amount

/-- `calculate_ib_money_market_return` (src/main.py lines 58-59). -/
def calculate_ib_money_market_return (principal_usd fed_rate : ℚ) : ℚ :=
  principal_usd * (fed_rate - 0.005)

/-- `calculate_futu_money_market_return` (src/main.py lines 61-62). -/
def calculate_futu_money_market_return (principal_usd annualized_return : ℚ) : ℚ :=
  principal_usd * (annualized_return / 100)

/-- `calculate_hk_money_market_return` (src/main.py lines 64-65). -/
def calculate_hk_money_market_return (capital_hkd annualized_return : ℚ) : ℚ :=
  capital_hkd * (annualized_return / 100)

/-- The numeric inputs `main` works from once I/O has produced them:
the six user inputs plus the two externally fetched rates
(`best_bond_rate = max(bond_rate_1y, bond_rate_10y)` and `fed_rate`). -/
structure Inputs where
  capital_hkd : ℚ
  ib_fx_rate : ℚ
  futu_fx_rate : ℚ
  futu_annualized_return_usd : ℚ
  futu_annualized_return_hkd : ℚ
  preferential_rate_hkd : ℚ
  best_bond_rate : ℚ
  fed_rate : ℚ

/-- The two per-brokerage USD instrument labels used by `best_ib_option` /
`best_futu_option_usd` ("Money Market Fund (USD)" / "Bond (USD)"). -/
inductive UsdOption where
  | moneyMarketFund
  | bond
  deriving DecidableEq

/-- The headline best-USD method label (src/main.py lines 196-199). -/
inductive UsdMethod where
  | ib
  | futu
  deriving DecidableEq

/-- The headline best-HKD method label (src/main.py lines 201-204). -/
inductive HkdMethod where
  | scbPreferentialRate
  | futuHkMoneyMarketFund
  deriving DecidableEq

/-- The four outcomes of the final comparison (src/main.py lines 226-233). -/
inductive FinalOption where
  | ib
  | futuUsd
  | futuHkMoneyMarket
  | scbPreferentialRate
  deriving DecidableEq

/-- src/main.py line 108. -/
def usd_received_ib (i : Inputs) : ℚ :=
  calculate_usd_received i.capital_hkd i.ib_fx_rate (some calculate_ib_fx_fee)

/-- src/main.py line 110. -/
def usd_received_futu (i : Inputs) : ℚ :=
  calculate_usd_received i.capital_hkd i.futu_fx_rate none

/-- src/main.py line 116. -/
def ib_money_market_return (i : Inputs) : ℚ :=
  calculate_ib_money_market_return (usd_received_ib i) i.fed_rate

/-- src/main.py line 117. -/
def futu_money_market_return_usd (i : Inputs) : ℚ :=
  calculate_futu_money_market_return (usd_received_futu i) i.futu_annualized_return_usd

/-- src/main.py lines 123, 126. -/
def ib_bond_return (i : Inputs) : ℚ :=
  usd_received_ib i * (i.best_bond_rate / 100) - calculate_ib_bond_fee (usd_received_ib i)

/-- src/main.py lines 124, 127. -/
def futu_bond_return (i : Inputs) : ℚ :=
  usd_received_futu i * (i.best_bond_rate / 100) - calculate_futu_bond_fee (usd_received_futu i)

/-- src/main.py line 133. -/
def futu_money_market_return_hkd (i : Inputs) : ℚ :=
  calculate_hk_money_market_return i.capital_hkd i.futu_annualized_return_hkd

/-- src/main.py line 137. -/
def preferential_return (i : Inputs) : ℚ :=
  i.capital_hkd * (i.preferential_rate_hkd / 100)

/-- src/main.py lines 141-146 (return value selected). -/
def best_ib_return (i : Inputs) : ℚ :=
  if ib_money_market_return i > ib_bond_return i then ib_money_market_return i
  else ib_bond_return i

/-- src/main.py lines 141-146 (label selected). -/
def best_ib_option (i : Inputs) : UsdOption :=
  if ib_money_market_return i > ib_bond_return i then UsdOption.moneyMarketFund
  else UsdOption.bond

/-- src/main.py lines 149-154 (return value selected). -/
def best_futu_return_usd (i : Inputs) : ℚ :=
  if futu_money_market_return_usd i > futu_bond_return i then futu_money_market_return_usd i
  else futu_bond_return i

/-- src/main.py lines 149-154 (label selected). -/
def best_futu_option_usd (i : Inputs) : UsdOption :=
  if futu_money_market_return_usd i > futu_bond_return i then UsdOption.moneyMarketFund
  else UsdOption.bond

/-- src/main.py line 183. -/
def total_ib_return (i : Inputs) : ℚ := usd_received_ib i + best_ib_return i

/-- src/main.py line 184. -/
def total_futu_return_usd (i : Inputs) : ℚ := usd_received_futu i + best_futu_return_usd i

/-- src/main.py line 185. -/
def total_preferential_return (i : Inputs) : ℚ := i.capital_hkd + preferential_return i

/-- src/main.py line 186. -/
def total_futu_return_hkd (i : Inputs) : ℚ := i.capital_hkd + futu_money_market_return_hkd i

/-- src/main.py line 189. -/
def best_usd_return (i : Inputs) : ℚ := max (total_ib_return i) (total_futu_return_usd i)

/-- src/main.py line 190. -/
def best_hkd_return (i : Inputs) : ℚ := max (total_preferential_return i) (total_futu_return_hkd i)

/-- src/main.py line 193: the division is performed unconditionally. -/
def exchange_rate_threshold (i : Inputs) : ℚ := best_usd_return i / best_hkd_return i

/-- src/main.py lines 196-199. -/
def best_usd_method (i : Inputs) : UsdMethod :=
  if best_usd_return i = total_ib_return i then UsdMethod.ib else UsdMethod.futu

/-- src/main.py lines 201-204. -/
def best_hkd_method (i : Inputs) : HkdMethod :=
  if best_hkd_return i = total_preferential_return i then HkdMethod.scbPreferentialRate
  else HkdMethod.futuHkMoneyMarketFund

/-- src/main.py lines 226-233: the final four-way comparison. -/
def final_result (i : Inputs) : FinalOption :=
  if total_ib_return i > total_futu_return_usd i ∧
      total_ib_return i > total_preferential_return i ∧
      total_ib_return i > total_futu_return_hkd i then FinalOption.ib
  else if total_futu_return_usd i > total_ib_return i ∧
      total_futu_return_usd i > total_preferential_return i ∧
      total_futu_return_usd i > total_futu_return_hkd i then FinalOption.futuUsd
  else if total_futu_return_hkd i > total_ib_return i ∧
      total_futu_return_hkd i > total_preferential_return i ∧
      total_futu_return_hkd i > total_futu_return_usd i then FinalOption.futuHkMoneyMarket
  else FinalOption.scbPreferentialRate

/-- Concrete input exhibiting an exact tie between the IB money-market return
and the IB bond return (both are 0): capital 0 gives `usd_received_ib = -2`,
`fed_rate = 0.005` zeroes the money-market return, and a bond rate of −250
makes the bond return `(-2) * (-2.5) - 5 = 0`. -/
def ibTieInput : Inputs :=
  { capital_hkd := 0, ib_fx_rate := 1, futu_fx_rate := 1,
    futu_annualized_return_usd := 0, futu_annualized_return_hkd := 0,
    preferential_rate_hkd := 0, best_bond_rate := -250, fed_rate := 0.005 }

/-- Concrete input where both the IB and the FUTU USD money-market returns tie
exactly with the respective bond returns (93 = 93 and 96 = 96). -/
def bothTieInput : Inputs :=
  { capital_hkd := 100, ib_fx_rate := 1, futu_fx_rate := 1,
    futu_annualized_return_usd := 96, futu_annualized_return_hkd := 0,
    preferential_rate_hkd := 0, best_bond_rate := 100, fed_rate := 9349 / 9800 }

/-- Concrete input with both HKD rates at −200%, so both HKD totals are −100
while the best USD total is 100. -/
def negativeHkdInput : Inputs :=
  { capital_hkd := 100, ib_fx_rate := 1, futu_fx_rate := 1,
    futu_annualized_return_usd := 0, futu_annualized_return_hkd := -200,
    preferential_rate_hkd := -200, best_bond_rate := 0, fed_rate := 0.005 }

/-- Concrete input on which all four totals are exactly 100:
`fed_rate = 249/9800` lifts the IB total from 98 to 100, and every other
vehicle keeps its principal unchanged. -/
def fourWayTieInput : Inputs :=
  { capital_hkd := 100, ib_fx_rate := 1, futu_fx_rate := 1,
    futu_annualized_return_usd := 0, futu_annualized_return_hkd := 0,
    preferential_rate_hkd := 0, best_bond_rate := 0, fed_rate := 249 / 9800 }

/-- Concrete input with a strictly positive best HKD total (100). -/
def positiveHkdInput : Inputs :=
  { capital_hkd := 100, ib_fx_rate := 1, futu_fx_rate := 1,
    futu_annualized_return_usd := 0, futu_annualized_return_hkd := 0,
    preferential_rate_hkd := 0, best_bond_rate := 0, fed_rate := 0.005 }

/-! ## Theorems -/

/-- The source's `if x > y then x else y` selection equals `max`. -/
theorem if_gt_eq_max (a b : ℚ) : (if a > b then a else b) = max a b := by
  rcases le_or_lt a b with h | h
  · rw [if_neg (not_lt.mpr h), max_eq_right h]
  · rw [if_pos h, max_eq_left h.le]

/-- C1 counterexample: on `ibTieInput` the IB money-market return and the IB
bond return are exactly equal (both 0), yet the engine labels the best IB
option "Bond (USD)", not "Money Market Fund (USD)": under `if mm > bond` the
`else` (Bond) branch wins on ties, refuting the claim that Money Market is
preferred on exact equality. -/
theorem ib_tie_counterexample :
    ib_money_market_return ibTieInput = ib_bond_return ibTieInput ∧
    best_ib_option ibTieInput = UsdOption.bond := by
  constructor <;>
  norm_num [best_ib_option, ib_money_market_return, ib_bond_return, usd_received_ib,
    calculate_usd_received, calculate_ib_fx_fee, calculate_ib_bond_fee,
    calculate_ib_money_market_return, ibTieInput]

/-- C1 (amended): per-brokerage best-of-two selection for IB, and identically
for FUTU on the USD side, picks the larger of the money-market return and the
bond return by return value; on exact equality of the two returns the Bond
option is selected (the `else` branch wins under the strict `>` comparison). -/
theorem best_of_two_amended (i : Inputs) :
    best_ib_return i = max (ib_money_market_return i) (ib_bond_return i) ∧
    best_futu_return_usd i = max (futu_money_market_return_usd i) (futu_bond_return i) ∧
    (ib_money_market_return i = ib_bond_return i → best_ib_option i = UsdOption.bond) ∧
    (futu_money_market_return_usd i = futu_bond_return i →
      best_futu_option_usd i = UsdOption.bond) := by
  refine ⟨?_, ?_, fun h => ?_, fun h => ?_⟩
  · unfold best_ib_return
    exact if_gt_eq_max _ _
  · unfold best_futu_return_usd
    exact if_gt_eq_max _ _
  · unfold best_ib_option
    rw [if_neg (by rw [h]; exact lt_irrefl _)]
  · unfold best_futu_option_usd
    rw [if_neg (by rw [h]; exact lt_irrefl _)]

/-- C1 witness: on `bothTieInput` both USD sides tie exactly (93 = 93 for IB,
96 = 96 for FUTU) and the amended theorem yields the Bond label on each side. -/
theorem best_of_two_amended_witness :
    (ib_money_market_return bothTieInput = ib_bond_return bothTieInput ∧
     futu_money_market_return_usd bothTieInput = futu_bond_return bothTieInput) ∧
    best_ib_option bothTieInput = UsdOption.bond ∧
    best_futu_option_usd bothTieInput = UsdOption.bond := by
  have h1 : ib_money_market_return bothTieInput = ib_bond_return bothTieInput := by
    norm_num [ib_money_market_return, ib_bond_return, usd_received_ib,
      calculate_usd_received, calculate_ib_fx_fee, calculate_ib_bond_fee,
      calculate_ib_money_market_return, bothTieInput]
  have h2 : futu_money_market_return_usd bothTieInput = futu_bond_return bothTieInput := by
    norm_num [futu_money_market_return_usd, futu_bond_return, usd_received_futu,
      calculate_usd_received, calculate_futu_bond_fee,
      calculate_futu_money_market_return, bothTieInput]
  exact ⟨⟨h1, h2⟩, (best_of_two_amended bothTieInput).2.2.1 h1,
    (best_of_two_amended bothTieInput).2.2.2 h2⟩

/-- C2 counterexample: on `negativeHkdInput` the best HKD total is −100, yet
the engine computes `exchange_rate_threshold = −1` — a negative rate — with no
error of any kind (no `DegenerateComparisonError` exists in the code). -/
theorem threshold_negative_counterexample :
    best_hkd_return negativeHkdInput = -100 ∧
    exchange_rate_threshold negativeHkdInput = -1 := by
  constructor <;>
  norm_num [best_hkd_return, best_usd_return, exchange_rate_threshold, total_ib_return,
    total_futu_return_usd, total_preferential_return, total_futu_return_hkd,
    best_ib_return, best_futu_return_usd, ib_money_market_return, ib_bond_return,
    futu_money_market_return_usd, futu_bond_return, futu_money_market_return_hkd,
    preferential_return, usd_received_ib, usd_received_futu, calculate_usd_received,
    calculate_ib_fx_fee, calculate_ib_bond_fee, calculate_futu_bond_fee,
    calculate_ib_money_market_return, calculate_futu_money_market_return,
    calculate_hk_money_market_return, negativeHkdInput]

/-- C2 (amended): the engine never raises on a non-positive `bestHKDTotal`;
it computes the threshold unconditionally as `bestUSDTotal / bestHKDTotal`,
so whenever the best USD total is positive and the best HKD total is negative
the reported threshold is a negative rate. -/
theorem threshold_unconditional (i : Inputs) (husd : 0 < best_usd_return i)
    (hhkd : best_hkd_return i < 0) :
    exchange_rate_threshold i = best_usd_return i / best_hkd_return i ∧
    exchange_rate_threshold i < 0 :=
  ⟨rfl, div_neg_of_pos_of_neg husd hhkd⟩

/-- C2 witness: `negativeHkdInput` has best USD total 100 > 0 and best HKD
total −100 < 0, and the amended theorem yields a negative threshold there. -/
theorem threshold_unconditional_witness :
    0 < best_usd_return negativeHkdInput ∧ best_hkd_return negativeHkdInput < 0 ∧
    exchange_rate_threshold negativeHkdInput < 0 := by
  have husd : 0 < best_usd_return negativeHkdInput := by
    norm_num [best_usd_return, total_ib_return, total_futu_return_usd,
      best_ib_return, best_futu_return_usd, ib_money_market_return, ib_bond_return,
      futu_money_market_return_usd, futu_bond_return, usd_received_ib, usd_received_futu,
      calculate_usd_received, calculate_ib_fx_fee, calculate_ib_bond_fee,
      calculate_futu_bond_fee, calculate_ib_money_market_return,
      calculate_futu_money_market_return, negativeHkdInput]
  have hhkd : best_hkd_return negativeHkdInput < 0 := by
    norm_num [best_hkd_return, total_preferential_return, total_futu_return_hkd,
      futu_money_market_return_hkd, preferential_return,
      calculate_hk_money_market_return, negativeHkdInput]
  exact ⟨husd, hhkd, (threshold_unconditional negativeHkdInput husd hhkd).2⟩

/-- C3: the final four-way comparison declares IB / FUTU-USD / FUTU-HK-HKD the
overall best exactly when its total is strictly greater than all three other
totals, and selects SCB Preferential Rate exactly when no such strict dominator
exists; in particular, on a four-way exact tie of all totals the engine
selects SCB Preferential Rate (and, being a total function, raises nothing). -/
theorem global_winner_selection (i : Inputs) :
    (final_result i = FinalOption.ib ↔
      (total_ib_return i > total_futu_return_usd i ∧
       total_ib_return i > total_preferential_return i ∧
       total_ib_return i > total_futu_return_hkd i)) ∧
    (final_result i = FinalOption.futuUsd ↔
      (total_futu_return_usd i > total_ib_return i ∧
       total_futu_return_usd i > total_preferential_return i ∧
       total_futu_return_usd i > total_futu_return_hkd i)) ∧
    (final_result i = FinalOption.futuHkMoneyMarket ↔
      (total_futu_return_hkd i > total_ib_return i ∧
       total_futu_return_hkd i > total_preferential_return i ∧
       total_futu_return_hkd i > total_futu_return_usd i)) ∧
    (final_result i = FinalOption.scbPreferentialRate ↔
      (¬(total_ib_return i > total_futu_return_usd i ∧
         total_ib_return i > total_preferential_return i ∧
         total_ib_return i > total_futu_return_hkd i) ∧
       ¬(total_futu_return_usd i > total_ib_return i ∧
         total_futu_return_usd i > total_preferential_return i ∧
         total_futu_return_usd i > total_futu_return_hkd i) ∧
       ¬(total_futu_return_hkd i > total_ib_return i ∧
         total_futu_return_hkd i > total_preferential_return i ∧
         total_futu_return_hkd i > total_futu_return_usd i))) ∧
    ((total_ib_return i = total_futu_return_usd i ∧
      total_futu_return_usd i = total_preferential_return i ∧
      total_preferential_return i = total_futu_return_hkd i) →
      final_result i = FinalOption.scbPreferentialRate) := by
  unfold final_result
  split_ifs with hA hB hC
  · refine ⟨iff_of_true rfl hA, iff_of_false (by simp) ?_, iff_of_false (by simp) ?_,
      iff_of_false (by simp) ?_, ?_⟩
    · exact fun hb => absurd hb.1 (not_lt.mpr hA.1.le)
    · exact fun hc => absurd hc.1 (not_lt.mpr hA.2.2.le)
    · exact fun h => h.1 hA
    · exact fun ht => absurd hA.1 (by rw [ht.1]; exact lt_irrefl _)
  · refine ⟨iff_of_false (by simp) hA, iff_of_true rfl hB, iff_of_false (by simp) ?_,
      iff_of_false (by simp) ?_, ?_⟩
    · exact fun hc => absurd hc.2.2 (not_lt.mpr hB.2.2.le)
    · exact fun h => h.2.1 hB
    · exact fun ht => absurd hB.1 (by rw [ht.1]; exact lt_irrefl _)
  · refine ⟨iff_of_false (by simp) hA, iff_of_false (by simp) hB, iff_of_true rfl hC,
      iff_of_false (by simp) ?_, ?_⟩
    · exact fun h => h.2.2 hC
    · exact fun ht => absurd hC.1 (by rw [ht.1, ht.2.1, ht.2.2]; exact lt_irrefl _)
  · exact ⟨iff_of_false (by simp) hA, iff_of_false (by simp) hB, iff_of_false (by simp) hC,
      iff_of_true rfl ⟨hA, hB, hC⟩, fun _ => rfl⟩

/-- C3 witness: on `fourWayTieInput` all four totals equal 100 and the engine
selects SCB Preferential Rate. -/
theorem global_winner_selection_witness :
    (total_ib_return fourWayTieInput = total_futu_return_usd fourWayTieInput ∧
     total_futu_return_usd fourWayTieInput = total_preferential_return fourWayTieInput ∧
     total_preferential_return fourWayTieInput = total_futu_return_hkd fourWayTieInput) ∧
    final_result fourWayTieInput = FinalOption.scbPreferentialRate := by
  have ht : total_ib_return fourWayTieInput = total_futu_return_usd fourWayTieInput ∧
      total_futu_return_usd fourWayTieInput = total_preferential_return fourWayTieInput ∧
      total_preferential_return fourWayTieInput = total_futu_return_hkd fourWayTieInput := by
    refine ⟨?_, ?_, ?_⟩ <;>
    norm_num [total_ib_return, total_futu_return_usd, total_preferential_return,
      total_futu_return_hkd, best_ib_return, best_futu_return_usd, ib_money_market_return,
      ib_bond_return, futu_money_market_return_usd, futu_bond_return,
      futu_money_market_return_hkd, preferential_return, usd_received_ib, usd_received_futu,
      calculate_usd_received, calculate_ib_fx_fee, calculate_ib_bond_fee,
      calculate_futu_bond_fee, calculate_ib_money_market_return,
      calculate_futu_money_market_return, calculate_hk_money_market_return, fourWayTieInput]
  exact ⟨ht, (global_winner_selection fourWayTieInput).2.2.2.2 ht⟩

/-- C4: whenever the best HKD total is strictly positive, the computed
exchange-rate threshold satisfies `threshold * bestHKDTotal = bestUSDTotal`
exactly (the embedding is over `ℚ`, so no floating tolerance is needed). -/
theorem threshold_identity (i : Inputs) (h : 0 < best_hkd_return i) :
    exchange_rate_threshold i * best_hkd_return i = best_usd_return i := by
  unfold exchange_rate_threshold
  exact div_mul_cancel₀ _ (ne_of_gt h)

/-- C4 witness: on `positiveHkdInput` the best HKD total is 100 > 0 and the
threshold identity holds there. -/
theorem threshold_identity_witness :
    0 < best_hkd_return positiveHkdInput ∧
    exchange_rate_threshold positiveHkdInput * best_hkd_return positiveHkdInput =
      best_usd_return positiveHkdInput := by
  have h : 0 < best_hkd_return positiveHkdInput := by
    norm_num [best_hkd_return, total_preferential_return, total_futu_return_hkd,
      futu_money_market_return_hkd, preferential_return,
      calculate_hk_money_market_return, positiveHkdInput]
  exact ⟨h, threshold_identity positiveHkdInput h⟩

/-- C5: each of the three fee functions is non-decreasing on non-negative
inputs, including across the IB bond tier boundary at 1,000,000. -/
theorem fee_monotone (x1 x2 : ℚ) (h0 : 0 ≤ x1) (h : x1 < x2) :
    calculate_ib_fx_fee x1 ≤ calculate_ib_fx_fee x2 ∧
    calculate_ib_bond_fee x1 ≤ calculate_ib_bond_fee x2 ∧
    calculate_futu_bond_fee x1 ≤ calculate_futu_bond_fee x2 := by
  refine ⟨?_, ?_, ?_⟩
  · unfold calculate_ib_fx_fee
    exact max_le_max le_rfl (by linarith)
  · unfold calculate_ib_bond_fee
    split_ifs with h1 h2 h3
    · exact max_le_max (by linarith) le_rfl
    · have hx : 0.002 * 0.0001 * x1 ≤ 5 := by nlinarith
      rw [max_eq_right hx]
      exact le_max_right _ _
    · exact absurd (le_trans h.le h3) h1
    · exact max_le_max (by linarith) le_rfl
  · show max (0.0008 * x1) 2 + min (max (0.0004 * x1) 2) 15 ≤
        max (0.0008 * x2) 2 + min (max (0.0004 * x2) 2) 15
    exact add_le_add (max_le_max (by linarith) le_rfl)
      (min_le_min (max_le_max (by linarith) le_rfl) le_rfl)

/-- C5 witness: monotonicity at the concrete pair 0 < 2,000,000, which crosses
the IB bond tier boundary. -/
theorem fee_monotone_witness :
    ((0:ℚ) ≤ 0 ∧ (0:ℚ) < 2000000) ∧
    calculate_ib_fx_fee 0 ≤ calculate_ib_fx_fee 2000000 ∧
    calculate_ib_bond_fee 0 ≤ calculate_ib_bond_fee 2000000 ∧
    calculate_futu_bond_fee 0 ≤ calculate_futu_bond_fee 2000000 :=
  ⟨⟨le_refl 0, by norm_num⟩, fee_monotone 0 2000000 (le_refl 0) (by norm_num)⟩

/-- C6: the IB bond fee is tiered with the boundary inclusive of 1,000,000 on
the lower-rate side: `ibBondFee x = max (0.002e-4 * x) 5` for `x ≤ 1,000,000`
(so `ibBondFee 1,000,000 = 5`), and `ibBondFee x = max (1e-4 * x) 5` for
`x > 1,000,000`. -/
theorem ib_bond_fee_tier (x : ℚ) :
    calculate_ib_bond_fee 1000000 = 5 ∧
    (x ≤ 1000000 → calculate_ib_bond_fee x = max (0.002e-4 * x) 5) ∧
    (1000000 < x → calculate_ib_bond_fee x = max (1e-4 * x) 5) := by
  refine ⟨by norm_num [calculate_ib_bond_fee], fun h => ?_, fun h => ?_⟩
  · unfold calculate_ib_bond_fee
    rw [if_pos h]
    congr 1
    ring
  · unfold calculate_ib_bond_fee
    rw [if_neg (not_le.mpr h)]

/-- C6 witness: the tier formula evaluated on each side of the boundary
(500,000 in the lower tier and 2,000,000 in the higher tier). -/
theorem ib_bond_fee_tier_witness :
    ((500000:ℚ) ≤ 1000000 ∧
      calculate_ib_bond_fee 500000 = max (0.002e-4 * 500000) 5) ∧
    ((1000000:ℚ) < 2000000 ∧
      calculate_ib_bond_fee 2000000 = max (1e-4 * 2000000) 5) :=
  ⟨⟨by norm_num, (ib_bond_fee_tier 500000).2.1 (by norm_num)⟩,
   ⟨by norm_num, (ib_bond_fee_tier 2000000).2.2 (by norm_num)⟩⟩

/-- C7: `calculate_usd_received` computes the fee on the pre-fee (gross)
converted amount: with a fee function it returns
`capital * rate - fee(capital * rate)`, and without one exactly
`capital * rate`. -/
theorem usd_received_gross_fee (capital_hkd fx_rate : ℚ) (fee_fn : ℚ → ℚ) :
    calculate_usd_received capital_hkd fx_rate (some fee_fn)
        = capital_hkd * fx_rate - fee_fn (capital_hkd * fx_rate) ∧
    calculate_usd_received capital_hkd fx_rate none = capital_hkd * fx_rate :=
  ⟨rfl, rfl⟩

/-- C8 counterexample: `calculate_ib_fx_fee (-100) = 2` — on a negative amount
the function returns the floor fee rather than failing; the source has no
input validation or raise, so the claim that it fails defensively is false. -/
theorem ib_fx_fee_negative_counterexample : calculate_ib_fx_fee (-100) = 2 := by
  norm_num [calculate_ib_fx_fee]

/-- C8 (amended): `calculate_ib_fx_fee` is total; on every negative amount it
does not fail but returns the flat floor fee 2. -/
theorem ib_fx_fee_total_amended (x : ℚ) (h : x < 0) : calculate_ib_fx_fee x = 2 := by
  unfold calculate_ib_fx_fee
  rw [max_eq_left (by nlinarith)]

/-- C8 witness: the amended theorem at the concrete negative amount −50. -/
theorem ib_fx_fee_total_amended_witness :
    (-50 : ℚ) < 0 ∧ calculate_ib_fx_fee (-50) = 2 :=
  ⟨by norm_num, ib_fx_fee_total_amended (-50) (by norm_num)⟩

/-- C9: all three fee functions are total over every rational input and are
floored: `ibFxFee x ≥ 2` with equality for all `x ≤ 100,000`;
`ibBondFee x ≥ 5` with equality for all `x ≤ 1,000,000`; `futuBondFee x ≥ 4`
with equality for all `x ≤ 2,500` — no input produces a fee below its floor. -/
theorem fee_floors (x : ℚ) :
    2 ≤ calculate_ib_fx_fee x ∧ 5 ≤ calculate_ib_bond_fee x ∧
    4 ≤ calculate_futu_bond_fee x ∧
    (x ≤ 100000 → calculate_ib_fx_fee x = 2) ∧
    (x ≤ 1000000 → calculate_ib_bond_fee x = 5) ∧
    (x ≤ 2500 → calculate_futu_bond_fee x = 4) := by
  refine ⟨le_max_left _ _, ?_, ?_, fun h => ?_, fun h => ?_, fun h => ?_⟩
  · unfold calculate_ib_bond_fee
    split_ifs <;> exact le_max_right _ _
  · show (4:ℚ) ≤ max (0.0008 * x) 2 + min (max (0.0004 * x) 2) 15
    have h1 : (2:ℚ) ≤ max (0.0008 * x) 2 := le_max_right _ _
    have h2 : (2:ℚ) ≤ min (max (0.0004 * x) 2) 15 :=
      le_min (le_max_right _ _) (by norm_num)
    linarith
  · unfold calculate_ib_fx_fee
    rw [max_eq_left (by nlinarith)]
  · unfold calculate_ib_bond_fee
    rw [if_pos h, max_eq_right (by nlinarith)]
  · show max (0.0008 * x) 2 + min (max (0.0004 * x) 2) 15 = 4
    rw [max_eq_right (by nlinarith), max_eq_right (by nlinarith)]
    norm_num

/-- C9 witness: the floor equalities at the concrete input 0. -/
theorem fee_floors_witness :
    ((0:ℚ) ≤ 100000 ∧ (0:ℚ) ≤ 1000000 ∧ (0:ℚ) ≤ 2500) ∧
    calculate_ib_fx_fee 0 = 2 ∧ calculate_ib_bond_fee 0 = 5 ∧
    calculate_futu_bond_fee 0 = 4 :=
  ⟨⟨by norm_num, by norm_num, by norm_num⟩,
   (fee_floors 0).2.2.2.1 (by norm_num), (fee_floors 0).2.2.2.2.1 (by norm_num),
   (fee_floors 0).2.2.2.2.2 (by norm_num)⟩

/-- C10: the headline method labels have their own tie preference — whenever
the IB total equals the FUTU USD total the best-USD method reported is IB, and
whenever the SCB preferential total equals the FUTU HKD total the best-HKD
method reported is SCB Preferential Rate; this tie order is independent of the
global-winner fallback, which on the same ties resolves to SCB Preferential. -/
theorem method_label_ties (i : Inputs) :
    (total_ib_return i = total_futu_return_usd i → best_usd_method i = UsdMethod.ib) ∧
    (total_preferential_return i = total_futu_return_hkd i →
      best_hkd_method i = HkdMethod.scbPreferentialRate) ∧
    (total_ib_return i = total_futu_return_usd i ∧
      total_preferential_return i = total_futu_return_hkd i →
      final_result i = FinalOption.scbPreferentialRate) := by
  refine ⟨fun h1 => ?_, fun h2 => ?_, fun ht => ?_⟩
  · have husd : best_usd_return i = total_ib_return i := by
      unfold best_usd_return
      rw [h1, max_self]
    unfold best_usd_method
    rw [if_pos husd]
  · have hhkd : best_hkd_return i = total_preferential_return i := by
      unfold best_hkd_return
      rw [h2, max_self]
    unfold best_hkd_method
    rw [if_pos hhkd]
  · have hA : ¬(total_ib_return i > total_futu_return_usd i ∧
        total_ib_return i > total_preferential_return i ∧
        total_ib_return i > total_futu_return_hkd i) := by
      rintro ⟨ha, -, -⟩
      rw [ht.1] at ha
      exact lt_irrefl _ ha
    have hB : ¬(total_futu_return_usd i > total_ib_return i ∧
        total_futu_return_usd i > total_preferential_return i ∧
        total_futu_return_usd i > total_futu_return_hkd i) := by
      rintro ⟨hb, -, -⟩
      rw [ht.1] at hb
      exact lt_irrefl _ hb
    have hC : ¬(total_futu_return_hkd i > total_ib_return i ∧
        total_futu_return_hkd i > total_preferential_return i ∧
        total_futu_return_hkd i > total_futu_return_usd i) := by
      rintro ⟨-, hc, -⟩
      rw [ht.2] at hc
      exact lt_irrefl _ hc
    unfold final_result
    rw [if_neg hA, if_neg hB, if_neg hC]

/-- C10 witness: on `fourWayTieInput` both per-currency pairs tie, the
headline labels are IB and SCB Preferential Rate, and the global-winner
fallback resolves to SCB Preferential Rate. -/
theorem method_label_ties_witness :
    (total_ib_return fourWayTieInput = total_futu_return_usd fourWayTieInput ∧
     total_preferential_return fourWayTieInput = total_futu_return_hkd fourWayTieInput) ∧
    best_usd_method fourWayTieInput = UsdMethod.ib ∧
    best_hkd_method fourWayTieInput = HkdMethod.scbPreferentialRate ∧
    final_result fourWayTieInput = FinalOption.scbPreferentialRate := by
  have h1 : total_ib_return fourWayTieInput = total_futu_return_usd fourWayTieInput := by
    norm_num [total_ib_return, total_futu_return_usd, best_ib_return, best_futu_return_usd,
      ib_money_market_return, ib_bond_return, futu_money_market_return_usd,
      futu_bond_return, usd_received_ib, usd_received_futu, calculate_usd_received,
      calculate_ib_fx_fee, calculate_ib_bond_fee, calculate_futu_bond_fee,
      calculate_ib_money_market_return, calculate_futu_money_market_return,
      fourWayTieInput]
  have h2 : total_preferential_return fourWayTieInput =
      total_futu_return_hkd fourWayTieInput := by
    norm_num [total_preferential_return, total_futu_return_hkd,
      futu_money_market_return_hkd, preferential_return,
      calculate_hk_money_market_return, fourWayTieInput]
  exact ⟨⟨h1, h2⟩, (method_label_ties fourWayTieInput).1 h1,
    (method_label_ties fourWayTieInput).2.1 h2,
    (method_label_ties fourWayTieInput).2.2 ⟨h1, h2⟩⟩
